import Mathlib

/-!
Verification of the Lock Coordination subsystem of the Issuer repository.

The ClientSession layer is the React `App` component (two variants in the
sources: the current one with display-name handling, and an earlier one with
the same lock logic).  The LockStore/LockCoordinator backend (the commands
behind `get_lock_info`, `update_heartbeat`, `force_acquire_lock`) is not part
of the frontend sources; where a property is about that backend it is
modelled from the spec, and marked as such in its doc comment.

The React runtime semantics used by the embedding:
* `useState` cells become fields of `AppState`;
* an event handler or async continuation becomes one atomic step on
  `AppState` (all its `set*` calls applied together);
* the mount effect (empty dependency list) runs exactly once, which is
  modelled by the `startupDone` flag;
* the heartbeat effect (dependency list `[lockMode]`) is re-run after every
  step: its cleanup clears the previous interval and the body starts a new
  one only in Edit mode, so after each step the interval exists iff the mode
  is Edit; this recomputation is `applyHeartbeatEffect`.
-/

namespace Issuer

/-- The four UI lock modes, from `type LockMode = 'edit' | 'readonly' | 'zombie' | 'loading'`. -/
inductive LockMode
  | edit
  | readonly
  | zombie
  | loading
deriving DecidableEq

/-- The payload of `get_lock_info()` as consumed by `checkLock`:
`{ mode, current_user, locked_by, display_name }`.  The `mode` field is a
plain string on the wire; the frontend compares it against literals. -/
structure LockInfo where
  mode : String
  current_user : String
  locked_by : Option String
  display_name : Option String
deriving DecidableEq

/-- Infrastructure failures a coordinator call can surface as a thrown
error (store unreachable, or slow beyond the bounded timeout). -/
inductive ApiErr
  | ioError
  | timeout
deriving DecidableEq

/-- The value-level replies of `update_heartbeat()` (`Ok | LostLock`); an
`IoError` is a thrown `ApiErr` instead.  The frontend discards this value. -/
inductive HeartbeatReply
  | ok
  | lostLock
deriving DecidableEq

/-- The `useState` cells of `App` that participate in lock coordination,
plus `startupDone` (the mount effect has run) and `heartbeatActive`
(the 60-second `setInterval` handle exists). -/
structure AppState where
  lockMode : LockMode
  lockedBy : Option String
  showZombieDialog : Bool
  startupDone : Bool
  heartbeatActive : Bool
deriving DecidableEq

/-- Initial state: `useState<LockMode>('loading')`, `useState(null)`,
`useState(false)`; no effect has run yet. -/
def initialAppState : AppState :=
  { lockMode := LockMode.loading
    lockedBy := none
    showZombieDialog := false
    startupDone := false
    heartbeatActive := false }

/-- The heartbeat period from `setInterval(..., 60_000)`. -/
def HEARTBEAT_INTERVAL_MS : Nat := 60000

/-- Outcome of one run of a `checkLock` body: the mode decided, the value
passed to `setLockedBy` if it was called, and whether `setShowZombieDialog(true)`
was called. -/
structure StartupOutcome where
  lockMode : LockMode
  lockedBy : Option (Option String)
  showZombieDialog : Bool
deriving DecidableEq

/-- `checkLock` of the current `App` variant.  On success it stores
`info.locked_by`, then branches: mode `'zombie'` sets zombie mode and shows
the takeover dialog, mode `'readonly'` sets readonly, anything else sets
edit.  On a thrown error it sets edit (`// fallback`) and no other state. -/
def checkLock_v1 (r : Except ApiErr LockInfo) : StartupOutcome :=
  match r with
  | Except.ok info =>
      { lockMode :=
          if info.mode = "zombie" then LockMode.zombie
          else if info.mode = "readonly" then LockMode.readonly
          else LockMode.edit
        lockedBy := some info.locked_by
        showZombieDialog := info.mode = "zombie" }
  | Except.error _ =>
      { lockMode := LockMode.edit
        lockedBy := none
        showZombieDialog := false }

/-- `checkLock` of the earlier `App` variant (identical lock logic; that
variant has no display-name handling). -/
def checkLock_v2 (r : Except ApiErr LockInfo) : StartupOutcome :=
  match r with
  | Except.ok info =>
      { lockMode :=
          if info.mode = "zombie" then LockMode.zombie
          else if info.mode = "readonly" then LockMode.readonly
          else LockMode.edit
        lockedBy := some info.locked_by
        showZombieDialog := info.mode = "zombie" }
  | Except.error _ =>
      { lockMode := LockMode.edit
        lockedBy := none
        showZombieDialog := false }

/-- Calls to the lock coordinator that a step can emit. -/
inductive CoordCall
  | getLockInfoCall
  | heartbeatCall
  | forceAcquireCall
deriving DecidableEq

/-- Events that drive the lock-related state of `App`:
the resolution of the startup `getLockInfo` call, a firing of the 60-second
heartbeat interval together with the resolution of its `updateHeartbeat`
call, the user confirming takeover in the zombie dialog together with the
resolution of `forceAcquireLock`, and the user choosing read-only. -/
inductive AppEvent
  | startupResult (r : Except ApiErr LockInfo)
  | heartbeatTick (r : Except ApiErr HeartbeatReply)
  | confirmTakeover (r : Except ApiErr Unit)
  | openReadonly

/-- `handleForceAcquire`: on success of `forceAcquireLock` it sets edit
mode, clears `lockedBy` and closes the dialog; on a thrown error it only
logs and alerts, leaving all state unchanged. -/
def handleForceAcquire (s : AppState) (r : Except ApiErr Unit) :
    AppState × List CoordCall :=
  match r with
  | Except.ok _ =>
      ({ s with lockMode := LockMode.edit
                lockedBy := none
                showZombieDialog := false }, [CoordCall.forceAcquireCall])
  | Except.error _ => (s, [CoordCall.forceAcquireCall])

/-- `handleOpenReadonly`: sets readonly mode and closes the dialog; makes
no coordinator call. -/
def handleOpenReadonly (s : AppState) : AppState × List CoordCall :=
  ({ s with lockMode := LockMode.readonly
            showZombieDialog := false }, [])

/-- The state updates of one event, before the heartbeat effect re-runs.
The startup branch applies only once (mount effect, empty dependency list);
the heartbeat interval only exists in edit mode, and its body ignores both
the reply value and thrown errors (the catch only logs); the two zombie
dialog buttons are rendered only while `showZombieDialog` is set. -/
def stepCore (s : AppState) (e : AppEvent) : AppState × List CoordCall :=
  match e with
  | AppEvent.startupResult r =>
      if s.startupDone then (s, [])
      else
        let o := checkLock_v1 r
        ({ s with
            lockMode := o.lockMode
            lockedBy := match o.lockedBy with
              | some x => x
              | none => s.lockedBy
            showZombieDialog :=
              if o.showZombieDialog then true else s.showZombieDialog
            startupDone := true }, [CoordCall.getLockInfoCall])
  | AppEvent.heartbeatTick _ =>
      if s.lockMode = LockMode.edit then (s, [CoordCall.heartbeatCall])
      else (s, [])
  | AppEvent.confirmTakeover r =>
      if s.showZombieDialog then handleForceAcquire s r else (s, [])
  | AppEvent.openReadonly =>
      if s.showZombieDialog then handleOpenReadonly s else (s, [])

/-- The heartbeat effect (dependency list `[lockMode]`): after a commit,
its cleanup clears any existing interval and its body starts one exactly
when the mode is edit. -/
def applyHeartbeatEffect (s : AppState) : AppState :=
  { s with heartbeatActive := s.lockMode == LockMode.edit }

/-- One full step of the `App` state machine: the event handler's state
updates followed by the heartbeat effect pass. -/
def step (s : AppState) (e : AppEvent) : AppState × List CoordCall :=
  let p := stepCore s e
  (applyHeartbeatEffect p.1, p.2)

/-- States reachable from the initial `App` state under the event step. -/
inductive Reachable : AppState → Prop
  | init : Reachable initialAppState
  | next : ∀ {s : AppState} (e : AppEvent), Reachable s → Reachable (step s e).1

/-- `const isReadonly = lockMode === 'readonly'`. -/
def isReadonly (s : AppState) : Bool := s.lockMode == LockMode.readonly

/-- The readonly banner is rendered exactly when `isReadonly` holds. -/
def showReadonlyBanner (s : AppState) : Bool := isReadonly s

/-- The AppBar badges of `lockIndicator` (the zombie branch falls through
to `default`, which renders nothing). -/
inductive IndicatorKind
  | editBadge
  | readonlyBadge
  | loadingBadge
  | noBadge
deriving DecidableEq

/-- `lockIndicator`: switch on `lockMode`. -/
def lockIndicator (s : AppState) : IndicatorKind :=
  match s.lockMode with
  | LockMode.edit => IndicatorKind.editBadge
  | LockMode.readonly => IndicatorKind.readonlyBadge
  | LockMode.loading => IndicatorKind.loadingBadge
  | LockMode.zombie => IndicatorKind.noBadge

/-- `FilterState` from the shared types module. -/
structure FilterState where
  keyword : String
  assignee : String
  tagsText : String
  currentTab : String
  milestoneId : Option Nat
deriving DecidableEq

/-- Which `App`-level handler a child callback prop is wired to. -/
inductive Handler
  | navigateDetail
  | navigateNew
  | navigateMilestone
  | saveFilterH
deriving DecidableEq

/-- The props interface of `IssueList`: exactly these fields, with no
readonly or mode field. -/
structure IssueListProps where
  onSelectIssue : Handler
  onNewIssue : Handler
  onShowMilestoneProgress : Handler
  savedFilter : Option FilterState
  onSaveFilter : Handler
deriving DecidableEq

/-- The props `App` passes to `IssueList` in its main render: navigation
and filter wiring only.  No field of the argument state (in particular not
`lockMode`) flows into them. -/
def issueListProps (_s : AppState) (savedFilter : Option FilterState) :
    IssueListProps :=
  { onSelectIssue := Handler.navigateDetail
    onNewIssue := Handler.navigateNew
    onShowMilestoneProgress := Handler.navigateMilestone
    savedFilter := savedFilter
    onSaveFilter := Handler.saveFilterH }

/-!
The coordinator backend, modelled from the spec.  The repository sources
under src contain only the frontend; the LockStore and LockCoordinator
(the README's `app/utils/lock.py`, respectively the commands behind
`get_lock_info` / `update_heartbeat` / `force_acquire_lock`) are absent,
so the acquire path is modelled from spec sections 4.1 and 4.2.
-/

/-- Modelled from the spec: the persisted LockRecord of section 3 —
`holder`, `acquired_at`, `last_heartbeat_at`, and the optional
`session_token` distinguishing one ClientSession instance. -/
structure LockRecord where
  holder : String
  session_token : Nat
  acquired_at : Nat
  last_heartbeat_at : Nat
deriving DecidableEq

/-- Modelled from the spec: a caller identity `(holder, session_token)`. -/
structure Requester where
  holder : String
  session_token : Nat
deriving DecidableEq

/-- Result of the atomic `create_if_absent` LockStore primitive. -/
inductive CreateResult
  | created
  | alreadyExists
deriving DecidableEq

/-- Modelled from the spec: the LockStore holds at most one LockRecord;
absence means unheld. -/
def LockStore : Type := Option LockRecord

/-- Modelled from the spec: `create_if_absent(record) -> Ok | AlreadyExists`,
the only safe primitive for uncontested first acquisition; atomic, so any
set of concurrent calls is equivalent to some sequential order of them. -/
def create_if_absent (st : LockStore) (rec : LockRecord) :
    CreateResult × LockStore :=
  match st with
  | none => (CreateResult.created, some rec)
  | some r => (CreateResult.alreadyExists, some r)

/-- What an `acquire` caller observes. -/
inductive AcquireResult
  | editGranted
  | conflict (holder : String)
deriving DecidableEq

/-- Modelled from the spec: a fresh record for a requester at time `now`
(`acquired_at = now`, `last_heartbeat_at = now`). -/
def mkRecord (q : Requester) (now : Nat) : LockRecord :=
  { holder := q.holder
    session_token := q.session_token
    acquired_at := now
    last_heartbeat_at := now }

/-- Modelled from the spec: `acquire(requester)` is a wrapper over
`create_if_absent`; on success the caller observes Edit, otherwise
`Conflict(current_holder)`. -/
def acquire (st : LockStore) (q : Requester) (now : Nat) :
    AcquireResult × LockStore :=
  match create_if_absent st (mkRecord q now) with
  | (CreateResult.created, st1) => (AcquireResult.editGranted, st1)
  | (CreateResult.alreadyExists, st1) =>
      (AcquireResult.conflict ((st1.map LockRecord.holder).getD ""), st1)

/-- Runs a sequence of `acquire` calls, one atomic call per requester,
returning each caller's observation and the final store.  Because
`create_if_absent` is atomic, every concurrent execution of the calls is
equivalent to this run for some ordering of the requester list. -/
def runAcquires (st : LockStore) (qs : List Requester) (now : Nat) :
    List AcquireResult × LockStore :=
  match qs with
  | [] => ([], st)
  | q :: rest =>
      let p := acquire st q now
      let pr := runAcquires p.2 rest now
      (p.1 :: pr.1, pr.2)

/-- Against a held store, every `acquire` observes a conflict naming the
current holder and leaves the store unchanged. -/
theorem runAcquires_held (r : LockRecord) (qs : List Requester) (now : Nat) :
    runAcquires (some r) qs now =
      (qs.map (fun _ => AcquireResult.conflict r.holder), some r) := by
  induction qs with
  | nil => rfl
  | cons q rest ih =>
      simp [runAcquires, acquire, create_if_absent, mkRecord, ih]

/-!
Helper states and inputs used to instantiate the theorems.
-/

/-- A session that entered edit mode and has its heartbeat running. -/
def editDemoState : AppState :=
  { lockMode := LockMode.edit
    lockedBy := none
    showZombieDialog := false
    startupDone := true
    heartbeatActive := true }

/-- A session that entered readonly mode behind a live foreign holder. -/
def readonlyDemoState : AppState :=
  { lockMode := LockMode.readonly
    lockedBy := some "alice"
    showZombieDialog := false
    startupDone := true
    heartbeatActive := false }

/-- A session that found a stale lock: zombie mode, takeover dialog open. -/
def zombieDemoState : AppState :=
  { lockMode := LockMode.zombie
    lockedBy := some "alice"
    showZombieDialog := true
    startupDone := true
    heartbeatActive := false }

/-- A `get_lock_info` reply reporting a live foreign holder. -/
def roInfo : LockInfo :=
  { mode := "readonly"
    current_user := "bob"
    locked_by := some "alice"
    display_name := some "bob" }

/-- A `get_lock_info` reply reporting a stale foreign holder. -/
def zInfo : LockInfo :=
  { mode := "zombie"
    current_user := "bob"
    locked_by := some "alice"
    display_name := some "bob" }

/-- The state right after startup resolved to readonly. -/
def roStartState : AppState :=
  (step initialAppState (AppEvent.startupResult (Except.ok roInfo))).1

/-!
Invariants of the reachable states of the App state machine.
-/

/-- Structural invariant of App: the zombie dialog is only shown in zombie
mode, and any state that has left loading has run its startup effect. -/
def AppInv (s : AppState) : Prop :=
  (s.showZombieDialog = true → s.lockMode = LockMode.zombie) ∧
  (s.lockMode ≠ LockMode.loading → s.startupDone = true)

theorem checkLock_v1_dialog_only_zombie (r : Except ApiErr LockInfo)
    (h : (checkLock_v1 r).showZombieDialog = true) :
    (checkLock_v1 r).lockMode = LockMode.zombie := by
  cases r with
  | ok info =>
      simp only [checkLock_v1, decide_eq_true_eq] at h ⊢
      simp [h]
  | error e => simp [checkLock_v1] at h

theorem checkLock_v1_not_loading (r : Except ApiErr LockInfo) :
    (checkLock_v1 r).lockMode ≠ LockMode.loading := by
  cases r with
  | ok info =>
      simp only [checkLock_v1]
      split <;> simp_all
      split <;> simp_all
  | error e => simp [checkLock_v1]

theorem appInv_initial : AppInv initialAppState := by
  constructor <;> simp [initialAppState, AppInv]

theorem appInv_step (s : AppState) (e : AppEvent) (h : AppInv s) :
    AppInv (step s e).1 := by
  obtain ⟨h1, h2⟩ := h
  cases e with
  | startupResult r =>
      by_cases hd : s.startupDone = true
      · simp_all [step, stepCore, applyHeartbeatEffect, AppInv]
      · have hnl := checkLock_v1_not_loading r
        by_cases ho : (checkLock_v1 r).showZombieDialog = true
        · have hz := checkLock_v1_dialog_only_zombie r ho
          simp_all [step, stepCore, applyHeartbeatEffect, AppInv]
        · by_cases hsd : s.showZombieDialog = true
          · exact absurd (h2 (by simp [h1 hsd])) (by simpa using hd)
          · simp_all [step, stepCore, applyHeartbeatEffect, AppInv]
  | heartbeatTick r =>
      by_cases hm : s.lockMode = LockMode.edit <;>
        simp_all [step, stepCore, applyHeartbeatEffect, AppInv]
  | confirmTakeover r =>
      by_cases hd : s.showZombieDialog = true
      · have hdone := h2 (by simp [h1 hd])
        cases r with
        | ok u =>
            simp_all [step, stepCore, handleForceAcquire, applyHeartbeatEffect,
              AppInv]
        | error e =>
            simp_all [step, stepCore, handleForceAcquire, applyHeartbeatEffect,
              AppInv]
      · simp_all [step, stepCore, applyHeartbeatEffect, AppInv]
  | openReadonly =>
      by_cases hd : s.showZombieDialog = true
      · have hdone := h2 (by simp [h1 hd])
        simp_all [step, stepCore, handleOpenReadonly, applyHeartbeatEffect,
          AppInv]
      · simp_all [step, stepCore, applyHeartbeatEffect, AppInv]

theorem appInv_reachable (s : AppState) (h : Reachable s) : AppInv s := by
  induction h with
  | init => exact appInv_initial
  | next e _ ih => exact appInv_step _ e ih

/-!
The claims.
-/

/-- Claim C1: for every set of concurrent acquire calls made by distinct
sessions against an initially empty lock store, exactly one caller ends in
Edit mode and every other caller observes Conflict or ReadOnly; at no point
do two sessions hold Edit simultaneously.  The store is an `Option`, so it
holds at most one record at any point of the run by construction; because
`create_if_absent` is atomic, any concurrent execution equals `runAcquires`
on some ordering of the callers, and there exactly the first caller is
granted Edit while every other observes a Conflict. -/
theorem c1_concurrent_acquire_single_editor (qs : List Requester) (now : Nat)
    (hne : qs ≠ [])
    (hdist : qs.Pairwise (fun a b => a.session_token ≠ b.session_token)) :
    ((runAcquires none qs now).1.countP
        (fun r => r == AcquireResult.editGranted)) = 1 ∧
    ∀ r, r ∈ (runAcquires none qs now).1 →
      r = AcquireResult.editGranted ∨
        ∃ h, r = AcquireResult.conflict h := by
  cases qs with
  | nil => exact absurd rfl hne
  | cons q rest =>
      have hrun : runAcquires none (q :: rest) now =
          ((AcquireResult.editGranted ::
              rest.map (fun _ => AcquireResult.conflict (mkRecord q now).holder)),
            some (mkRecord q now)) := by
        simp [runAcquires, acquire, create_if_absent, runAcquires_held]
      rw [hrun]
      constructor
      · simp [List.countP_cons, List.countP_map, Function.comp]
      · intro r hr
        rcases List.mem_cons.mp hr with h | h
        · exact Or.inl h
        · rcases List.mem_map.mp h with ⟨a, _, ha⟩
          exact Or.inr ⟨(mkRecord q now).holder, ha.symm⟩

/-- Witness for C1 at a concrete run of three distinct sessions. -/
theorem c1_concurrent_acquire_single_editor_witness :
    ((runAcquires none
        [{ holder := "a", session_token := 1 },
         { holder := "b", session_token := 2 },
         { holder := "c", session_token := 3 }] 0).1.countP
      (fun r => r == AcquireResult.editGranted)) = 1 :=
  (c1_concurrent_acquire_single_editor
    [{ holder := "a", session_token := 1 },
     { holder := "b", session_token := 2 },
     { holder := "c", session_token := 3 }] 0
    (by decide) (by decide)).1

/-- Claim C2, as stated, is false: the fail-open resolution of the startup
check is not applied at every call site that can see an infrastructure
error.  At the force-acquire call site an error leaves the session in
Zombie with the error surfaced, not in Edit. -/
theorem c2_force_acquire_site_not_fail_open_cex :
    (step zombieDemoState
        (AppEvent.confirmTakeover (Except.error ApiErr.ioError))).2 =
      [CoordCall.forceAcquireCall] ∧
    (step zombieDemoState
        (AppEvent.confirmTakeover (Except.error ApiErr.ioError))).1.lockMode ≠
      LockMode.edit := by
  constructor
  · rfl
  · decide

/-- Claim C2 amended: if the initial `getLockInfo` call fails with an
infrastructure error, both `App` variants resolve the session to Edit
(fail-open), and an error at the heartbeat call site also leaves the
session in Edit; the force-acquire call site, however, surfaces the error
and stays in Zombie. -/
theorem c2_startup_fail_open (err : ApiErr) (s t : AppState)
    (hs : s.startupDone = false) (ht : t.lockMode = LockMode.edit)
    (r : Except ApiErr HeartbeatReply) :
    (checkLock_v1 (Except.error err)).lockMode = LockMode.edit ∧
    (checkLock_v2 (Except.error err)).lockMode = LockMode.edit ∧
    (step s (AppEvent.startupResult (Except.error err))).1.lockMode =
      LockMode.edit ∧
    (step t (AppEvent.heartbeatTick r)).1.lockMode = LockMode.edit := by
  refine ⟨rfl, rfl, ?_, ?_⟩
  · simp [step, stepCore, hs, checkLock_v1, applyHeartbeatEffect]
  · simp [step, stepCore, ht, applyHeartbeatEffect]

/-- Witness for C2 amended at the initial state and a running editor. -/
theorem c2_startup_fail_open_witness :
    (step initialAppState
        (AppEvent.startupResult (Except.error ApiErr.ioError))).1.lockMode =
      LockMode.edit :=
  (c2_startup_fail_open ApiErr.ioError initialAppState editDemoState rfl rfl
    (Except.ok HeartbeatReply.ok)).2.2.1

/-- Claim C3, as stated, is false: when a heartbeat returns LostLock or
throws a hard I/O failure, the session does not transition to ReadOnly —
the interval body discards the reply and the catch only logs, so the
session stays in Edit. -/
theorem c3_heartbeat_failure_no_downgrade_cex :
    (step editDemoState
        (AppEvent.heartbeatTick (Except.ok HeartbeatReply.lostLock))).1.lockMode =
      LockMode.edit ∧
    (step editDemoState
        (AppEvent.heartbeatTick (Except.error ApiErr.ioError))).1.lockMode =
      LockMode.edit ∧
    LockMode.edit ≠ LockMode.readonly := by
  refine ⟨rfl, rfl, by decide⟩

/-- Claim C3 amended: on LostLock or a hard I/O failure from a heartbeat,
the session ignores the outcome entirely — it remains in Edit with all
lock-related state unchanged and the heartbeat task still active. -/
theorem c3_heartbeat_failure_ignored (s : AppState)
    (r : Except ApiErr HeartbeatReply) (h : s.lockMode = LockMode.edit) :
    (step s (AppEvent.heartbeatTick r)).1.lockMode = LockMode.edit ∧
    (step s (AppEvent.heartbeatTick r)).1.lockedBy = s.lockedBy ∧
    (step s (AppEvent.heartbeatTick r)).1.showZombieDialog =
      s.showZombieDialog ∧
    (step s (AppEvent.heartbeatTick r)).1.heartbeatActive = true ∧
    (step s (AppEvent.heartbeatTick r)).2 = [CoordCall.heartbeatCall] := by
  refine ⟨?_, ?_, ?_, ?_, ?_⟩ <;>
    simp [step, stepCore, h, applyHeartbeatEffect]

/-- Witness for C3 amended at a running editor receiving LostLock. -/
theorem c3_heartbeat_failure_ignored_witness :
    (step editDemoState
        (AppEvent.heartbeatTick (Except.ok HeartbeatReply.lostLock))).1.lockMode =
      LockMode.edit :=
  (c3_heartbeat_failure_ignored editDemoState
    (Except.ok HeartbeatReply.lostLock) rfl).1

/-- Claim C4, as stated, is false: in ReadOnly mode the session layer does
not reject locally-initiated mutations.  The props `App` passes to its
children in ReadOnly mode are identical to those passed in Edit mode — in
particular the new-issue entry point stays wired — and the `IssueList`
props interface has no readonly field at all. -/
theorem c4_readonly_mutations_not_gated_cex :
    isReadonly readonlyDemoState = true ∧
    issueListProps readonlyDemoState none = issueListProps editDemoState none ∧
    (issueListProps readonlyDemoState none).onNewIssue = Handler.navigateNew := by
  refine ⟨rfl, rfl, rfl⟩

/-- Claim C4 amended: in ReadOnly mode the session only displays read-only
status (banner and AppBar indicator); the props handed to the
mutation-capable children do not depend on the lock mode, so mutations are
not rejected at the ClientSession layer. -/
theorem c4_readonly_display_only (s t : AppState) (f : Option FilterState) :
    isReadonly s = (s.lockMode == LockMode.readonly) ∧
    showReadonlyBanner s = isReadonly s ∧
    lockIndicator readonlyDemoState = IndicatorKind.readonlyBadge ∧
    issueListProps s f = issueListProps t f := by
  exact ⟨rfl, rfl, rfl, rfl⟩

/-- Claim C5: the heartbeat task calling `updateHeartbeat` every 60 seconds
exists exactly while the session is in Edit mode.  After every step the
interval is active iff the resulting mode is Edit (the effect keyed on
`lockMode` starts it on entry and clears it synchronously, in the same
commit, on any transition out); the task is a single interval handle, so at
most one exists per process; its period is 60000 ms; and no heartbeat call
is emitted outside Edit mode. -/
theorem c5_heartbeat_task_lifecycle (s t : AppState) (e : AppEvent)
    (r : Except ApiErr HeartbeatReply) (h : t.lockMode ≠ LockMode.edit) :
    initialAppState.heartbeatActive = false ∧
    ((step s e).1.heartbeatActive = true ↔
      (step s e).1.lockMode = LockMode.edit) ∧
    HEARTBEAT_INTERVAL_MS = 60000 ∧
    (step t (AppEvent.heartbeatTick r)).2 = [] := by
  refine ⟨rfl, ?_, rfl, ?_⟩
  · simp [step, applyHeartbeatEffect]
  · simp [step, stepCore, h]

/-- Witness for C5 at a readonly session whose timer cannot fire. -/
theorem c5_heartbeat_task_lifecycle_witness :
    (step readonlyDemoState
        (AppEvent.heartbeatTick (Except.ok HeartbeatReply.ok))).2 = [] :=
  (c5_heartbeat_task_lifecycle initialAppState readonlyDemoState
    AppEvent.openReadonly (Except.ok HeartbeatReply.ok) (by decide)).2.2.2

/-- Claim C6: a session starts in Loading, issues exactly one status call
(the mount effect's `checkLock`; once `startupDone` is set a further
resolution changes nothing and emits no call), and transitions per the
result: mode `'zombie'` yields the Zombie state with the takeover dialog
shown, `'readonly'` yields ReadOnly with the reported holder stored, and
`'edit'` yields Edit. -/
theorem c6_startup_state_machine (info : LockInfo) (s : AppState)
    (r : Except ApiErr LockInfo) (hdone : s.startupDone = true) :
    initialAppState.lockMode = LockMode.loading ∧
    (step initialAppState (AppEvent.startupResult (Except.ok info))).2 =
      [CoordCall.getLockInfoCall] ∧
    (info.mode = "zombie" →
      (step initialAppState (AppEvent.startupResult (Except.ok info))).1 =
        { lockMode := LockMode.zombie
          lockedBy := info.locked_by
          showZombieDialog := true
          startupDone := true
          heartbeatActive := false }) ∧
    (info.mode = "readonly" →
      (step initialAppState (AppEvent.startupResult (Except.ok info))).1 =
        { lockMode := LockMode.readonly
          lockedBy := info.locked_by
          showZombieDialog := false
          startupDone := true
          heartbeatActive := false }) ∧
    (info.mode = "edit" →
      (step initialAppState (AppEvent.startupResult (Except.ok info))).1 =
        { lockMode := LockMode.edit
          lockedBy := info.locked_by
          showZombieDialog := false
          startupDone := true
          heartbeatActive := true }) ∧
    stepCore s (AppEvent.startupResult r) = (s, []) := by
  refine ⟨rfl, ?_, ?_, ?_, ?_, ?_⟩
  · simp [step, stepCore, initialAppState]
  · intro h
    simp [step, stepCore, initialAppState, checkLock_v1, h,
      applyHeartbeatEffect]
  · intro h
    simp [step, stepCore, initialAppState, checkLock_v1, h,
      applyHeartbeatEffect]
  · intro h
    simp [step, stepCore, initialAppState, checkLock_v1, h,
      applyHeartbeatEffect]
  · simp [stepCore, hdone]

/-- Witness for C6 at a reply naming a stale holder. -/
theorem c6_startup_state_machine_witness :
    (step initialAppState (AppEvent.startupResult (Except.ok zInfo))).1 =
      { lockMode := LockMode.zombie
        lockedBy := some "alice"
        showZombieDialog := true
        startupDone := true
        heartbeatActive := false } :=
  (c6_startup_state_machine zInfo editDemoState
    (Except.error ApiErr.ioError) rfl).2.2.1 rfl

/-- Claim C7: the Zombie state has exactly two exits, both user-driven.
Confirming takeover calls `force_acquire` and, on success, moves to Edit;
continuing read-only moves to ReadOnly and emits no coordinator call; a
firing of the timer (the only time-driven event, and one that cannot even
exist outside Edit mode) leaves Zombie in place, so no timeout resolves
the state. -/
theorem c7_zombie_exactly_two_exits (s : AppState) (e : AppEvent)
    (hm : s.lockMode = LockMode.zombie) (hd : s.showZombieDialog = true)
    (hdone : s.startupDone = true) :
    ((step s e).1.lockMode ≠ LockMode.zombie →
      e = AppEvent.openReadonly ∨
        e = AppEvent.confirmTakeover (Except.ok ())) ∧
    ((step s (AppEvent.confirmTakeover (Except.ok ()))).1.lockMode =
        LockMode.edit ∧
      (step s (AppEvent.confirmTakeover (Except.ok ()))).2 =
        [CoordCall.forceAcquireCall]) ∧
    ((step s AppEvent.openReadonly).1.lockMode = LockMode.readonly ∧
      (step s AppEvent.openReadonly).2 = []) ∧
    (∀ r, (step s (AppEvent.heartbeatTick r)).1.lockMode = LockMode.zombie ∧
      (step s (AppEvent.heartbeatTick r)).2 = []) := by
  refine ⟨?_, ⟨?_, ?_⟩, ⟨?_, ?_⟩, ?_⟩
  · intro hne
    cases e with
    | startupResult r =>
        exact absurd
          (by simp [step, stepCore, hdone, applyHeartbeatEffect, hm]) hne
    | heartbeatTick r =>
        exact absurd (by simp [step, stepCore, hm, applyHeartbeatEffect]) hne
    | confirmTakeover r =>
        cases r with
        | ok u => cases u; exact Or.inr rfl
        | error err =>
            exact absurd
              (by simp [step, stepCore, hd, handleForceAcquire,
                applyHeartbeatEffect, hm]) hne
    | openReadonly => exact Or.inl rfl
  · simp [step, stepCore, hd, handleForceAcquire, applyHeartbeatEffect]
  · simp [step, stepCore, hd, handleForceAcquire, applyHeartbeatEffect]
  · simp [step, stepCore, hd, handleOpenReadonly, applyHeartbeatEffect]
  · simp [step, stepCore, hd, handleOpenReadonly, applyHeartbeatEffect]
  · intro r
    constructor <;> simp [step, stepCore, hm, applyHeartbeatEffect]

/-- Witness for C7 at the concrete zombie session choosing read-only. -/
theorem c7_zombie_exactly_two_exits_witness :
    (step zombieDemoState AppEvent.openReadonly).1.lockMode =
      LockMode.readonly :=
  (c7_zombie_exactly_two_exits zombieDemoState AppEvent.openReadonly
    rfl rfl rfl).2.2.1.1

/-- Claim C8: from ReadOnly, no event of a running session ever moves the
mode — in particular the session never transitions back to Edit and never
silently re-acquires write access.  Re-running the Loading sequence means
starting a fresh session from `initialAppState` (the status check is a
mount-only effect), which is outside any single session's trace. -/
theorem c8_readonly_never_auto_promotes (s : AppState) (e : AppEvent)
    (hr : Reachable s) (hm : s.lockMode = LockMode.readonly) :
    (step s e).1.lockMode = LockMode.readonly := by
  obtain ⟨h1, h2⟩ := appInv_reachable s hr
  have hd : s.showZombieDialog = false := by
    by_cases hsd : s.showZombieDialog = true
    · exact absurd (h1 hsd) (by simp [hm])
    · simpa using hsd
  have hdone : s.startupDone = true := h2 (by simp [hm])
  cases e with
  | startupResult r => simp [step, stepCore, hdone, applyHeartbeatEffect, hm]
  | heartbeatTick r => simp [step, stepCore, hm, applyHeartbeatEffect]
  | confirmTakeover r => simp [step, stepCore, hd, applyHeartbeatEffect, hm]
  | openReadonly => simp [step, stepCore, hd, applyHeartbeatEffect, hm]

/-- Witness for C8 at the reachable state produced by a readonly startup. -/
theorem c8_readonly_never_auto_promotes_witness :
    (step roStartState AppEvent.openReadonly).1.lockMode =
      LockMode.readonly :=
  c8_readonly_never_auto_promotes roStartState AppEvent.openReadonly
    (Reachable.next (AppEvent.startupResult (Except.ok roInfo))
      Reachable.init)
    (by decide)

/-- Claim C9: if `force_acquire` throws during takeover confirmation, the
session's observable state is unchanged — the mode stays Zombie, the
recorded holder is untouched and the takeover dialog stays open — because
the handler performs its state updates only after the awaited call
succeeds. -/
theorem c9_takeover_error_atomicity (s : AppState) (err : ApiErr)
    (hm : s.lockMode = LockMode.zombie) (hd : s.showZombieDialog = true) :
    (step s (AppEvent.confirmTakeover (Except.error err))).1.lockMode =
      LockMode.zombie ∧
    (step s (AppEvent.confirmTakeover (Except.error err))).1.lockedBy =
      s.lockedBy ∧
    (step s (AppEvent.confirmTakeover (Except.error err))).1.showZombieDialog =
      true ∧
    (step s (AppEvent.confirmTakeover (Except.error err))).2 =
      [CoordCall.forceAcquireCall] := by
  refine ⟨?_, ?_, ?_, ?_⟩ <;>
    simp [step, stepCore, hd, handleForceAcquire, applyHeartbeatEffect, hm]

/-- Witness for C9 at the concrete zombie session hitting an I/O error. -/
theorem c9_takeover_error_atomicity_witness :
    (step zombieDemoState
        (AppEvent.confirmTakeover (Except.error ApiErr.ioError))).1.lockMode =
      LockMode.zombie :=
  (c9_takeover_error_atomicity zombieDemoState ApiErr.ioError rfl rfl).1

/-- Claim C10: any status reply whose mode string is neither `'zombie'` nor
`'readonly'` — including unrecognized or malformed values — makes the
session enter Edit without showing the takeover dialog, in both `App`
variants: the mode decision fails open on unexpected strings. -/
theorem c10_unknown_mode_fails_open (info : LockInfo)
    (h1 : info.mode ≠ "zombie") (h2 : info.mode ≠ "readonly") :
    (checkLock_v1 (Except.ok info)).lockMode = LockMode.edit ∧
    (checkLock_v2 (Except.ok info)).lockMode = LockMode.edit ∧
    (step initialAppState
        (AppEvent.startupResult (Except.ok info))).1.lockMode =
      LockMode.edit ∧
    (step initialAppState
        (AppEvent.startupResult (Except.ok info))).1.showZombieDialog =
      false := by
  refine ⟨?_, ?_, ?_, ?_⟩ <;>
    simp [checkLock_v1, checkLock_v2, h1, h2, step, stepCore,
      applyHeartbeatEffect, initialAppState]

/-- Witness for C10 at a malformed mode string. -/
theorem c10_unknown_mode_fails_open_witness :
    (checkLock_v1 (Except.ok
        { mode := "locked"
          current_user := "u"
          locked_by := none
          display_name := none })).lockMode = LockMode.edit :=
  (c10_unknown_mode_fails_open
    { mode := "locked"
      current_user := "u"
      locked_by := none
      display_name := none }
    (by decide) (by decide)).1

end Issuer
